import Mathlib

/-!
Shallow embedding of the `axvmconfig` crate (src/lib.rs, src/templates.rs).

Machine integers (`usize`, `u8`) are modelled as `Nat`; TOML documents are
modelled at the value level (the `toml` crate's syntactic parse produces a
value tree before the serde-derived deserializers of this crate run), and
fallible deserialization returns `Except String`.
-/

namespace AxVmConfig

/-- `VMType` (src/lib.rs lines 20-29): guest VM type; `#[default]` is `VMTRTOS`. -/
inductive VMType where
  | VMTHostVM
  | VMTRTOS
  | VMTLinux
deriving DecidableEq, Repr

/-- `Default for VMType` via `#[default]` on `VMTRTOS`. -/
def VMType.default : VMType := .VMTRTOS

/-- `impl From<usize> for VMType` (src/lib.rs lines 31-43): 0, 1, 2 map to the
variants; anything else warns and falls back to `Self::default()`. -/
def VMType.fromUsize (value : Nat) : VMType :=
  match value with
  | 0 => .VMTHostVM
  | 1 => .VMTRTOS
  | 2 => .VMTLinux
  | _ => VMType.default

/-- `impl From<VMType> for usize` (src/lib.rs lines 45-49): `value as usize`. -/
def VMType.toUsize : VMType → Nat
  | .VMTHostVM => 0
  | .VMTRTOS => 1
  | .VMTLinux => 2

/-- `VmMemMappingType` (src/lib.rs lines 52-59), `#[repr(u8)]`. -/
inductive VmMemMappingType where
  | MapAlloc
  | MapIdentical
deriving DecidableEq, Repr

/-- `Default for VmMemMappingType` (src/lib.rs lines 62-66): `MapAlloc`. -/
def VmMemMappingType.default : VmMemMappingType := .MapAlloc

/-- Discriminant values of `VmMemMappingType` (`MapAlloc = 0`, `MapIdentical = 1`). -/
def VmMemMappingType.toCode : VmMemMappingType → Nat
  | .MapAlloc => 0
  | .MapIdentical => 1

/-- `EmulatedDeviceType` (src/lib.rs lines 93-135), `#[repr(u8)]`, ten variants. -/
inductive EmulatedDeviceType where
  | Dummy
  | InterruptController
  | Console
  | IVCChannel
  | GPPTRedistributor
  | GPPTDistributor
  | GPPTITS
  | VirtioBlk
  | VirtioNet
  | VirtioConsole
deriving DecidableEq, Repr

/-- Discriminant values assigned in the enum declaration
(`Dummy = 0x0`, ..., `VirtioConsole = 0xE3`); `v as usize`. -/
def EmulatedDeviceType.toCode : EmulatedDeviceType → Nat
  | .Dummy => 0x0
  | .InterruptController => 0x1
  | .Console => 0x2
  | .IVCChannel => 0xA
  | .GPPTRedistributor => 0x20
  | .GPPTDistributor => 0x21
  | .GPPTITS => 0x22
  | .VirtioBlk => 0xE1
  | .VirtioNet => 0xE2
  | .VirtioConsole => 0xE3

/-- `Default for EmulatedDeviceType` (src/lib.rs lines 137-141): `Dummy`. -/
def EmulatedDeviceType.default : EmulatedDeviceType := .Dummy

/-- `EmulatedDeviceType::removable` (src/lib.rs lines 170-182). -/
def EmulatedDeviceType.removable : EmulatedDeviceType → Bool
  | .InterruptController => true
  | .GPPTRedistributor => true
  | .VirtioBlk => true
  | .VirtioNet => true
  | .VirtioConsole => true
  | _ => false

/-- `EmulatedDeviceType::from_usize` (src/lib.rs lines 185-206): known codes map
to their variants, anything else warns and yields `Dummy`. -/
def EmulatedDeviceType.from_usize (value : Nat) : EmulatedDeviceType :=
  match value with
  | 0x0 => .Dummy
  | 0x1 => .InterruptController
  | 0x2 => .Console
  | 0xA => .IVCChannel
  | 0x20 => .GPPTRedistributor
  | 0x21 => .GPPTDistributor
  | 0x22 => .GPPTITS
  | 0xE1 => .VirtioBlk
  | 0xE2 => .VirtioNet
  | 0xE3 => .VirtioConsole
  | _ => .Dummy

/-- `VMInterruptMode` (src/lib.rs lines 304-315). -/
inductive VMInterruptMode where
  | NoIrq
  | Emulated
  | Passthrough
deriving DecidableEq, Repr

/-- `Default for VMInterruptMode` (src/lib.rs lines 317-321): `NoIrq`. -/
def VMInterruptMode.default : VMInterruptMode := .NoIrq

/-- `VmMemConfig` (src/lib.rs lines 68-79). -/
structure VmMemConfig where
  gpa : Nat
  size : Nat
  flags : Nat
  map_type : VmMemMappingType
deriving DecidableEq, Repr

/-- `EmulatedDeviceConfig` (src/lib.rs lines 209-224). -/
structure EmulatedDeviceConfig where
  name : String
  base_gpa : Nat
  length : Nat
  irq_id : Nat
  emu_type : EmulatedDeviceType
  cfg_list : List Nat
deriving DecidableEq, Repr

/-- `PassThroughDeviceConfig` (src/lib.rs lines 226-239). -/
structure PassThroughDeviceConfig where
  name : String
  base_gpa : Nat
  base_hpa : Nat
  length : Nat
  irq_id : Nat
deriving DecidableEq, Repr

/-- `VMBaseConfig` (src/lib.rs lines 241-270). `vm_type` is a raw `usize`,
not the `VMType` enum. -/
structure VMBaseConfig where
  id : Nat
  name : String
  vm_type : Nat
  cpu_num : Nat
  phys_cpu_ids : Option (List Nat)
  phys_cpu_sets : Option (List Nat)
deriving DecidableEq, Repr

/-- `VMKernelConfig` (src/lib.rs lines 272-301). -/
structure VMKernelConfig where
  entry_point : Nat
  kernel_path : String
  kernel_load_addr : Nat
  bios_path : Option String
  bios_load_addr : Option Nat
  dtb_path : Option String
  dtb_load_addr : Option Nat
  ramdisk_path : Option String
  ramdisk_load_addr : Option Nat
  image_location : Option String
  cmdline : Option String
  disk_path : Option String
  memory_regions : List VmMemConfig
deriving DecidableEq, Repr

/-- `VMDevicesConfig` (src/lib.rs lines 323-333); `interrupt_mode` carries
`#[serde(default)]`. -/
structure VMDevicesConfig where
  emu_devices : List EmulatedDeviceConfig
  passthrough_devices : List PassThroughDeviceConfig
  interrupt_mode : VMInterruptMode
deriving DecidableEq, Repr

/-- `AxVMCrateConfig` (src/lib.rs lines 337-345). -/
structure AxVMCrateConfig where
  base : VMBaseConfig
  kernel : VMKernelConfig
  devices : VMDevicesConfig
deriving DecidableEq, Repr

/-!
TOML documents at the value level. The `toml` crate parses the raw text into
a value tree (rejecting syntax errors and duplicate keys) and then drives the
serde-derived `Deserialize` impls of this crate over that tree; the derived
impls are what we embed. TOML integers are `i64`, hence `Int` here.
-/

/-- A parsed TOML value. -/
inductive TomlValue where
  | str : String → TomlValue
  | int : Int → TomlValue
  | boolean : Bool → TomlValue
  | arr : List TomlValue → TomlValue
  | table : List (String × TomlValue) → TomlValue

/-- Occurrences of a key in a table; the derived map visitor errors on a
duplicate occurrence of a declared field. -/
def getField (kvs : List (String × TomlValue)) (key : String) :
    Except String (Option TomlValue) :=
  match kvs.filter (fun kv => kv.1 == key) with
  | [] => .ok none
  | [kv] => .ok (some kv.2)
  | _ => .error ("duplicate field " ++ key)

/-- A mandatory field: absence is a `missing field` error (serde derive for a
field with no `#[serde(default)]` and a non-`Option` type). -/
def reqField (kvs : List (String × TomlValue)) (key : String)
    (de : TomlValue → Except String α) : Except String α := do
  match ← getField kvs key with
  | some v => de v
  | none => .error ("missing field " ++ key)

/-- An `Option<T>` field: absence yields `None` (serde derive's treatment of
`Option` fields in the map visitor). -/
def optField (kvs : List (String × TomlValue)) (key : String)
    (de : TomlValue → Except String α) : Except String (Option α) := do
  match ← getField kvs key with
  | some v => (de v).map some
  | none => .ok none

/-- A `#[serde(default)]` field: absence yields the given default. -/
def defField (kvs : List (String × TomlValue)) (key : String)
    (de : TomlValue → Except String α) (dflt : α) : Except String α := do
  match ← getField kvs key with
  | some v => de v
  | none => .ok dflt

/-- Deserializing a `usize`: a TOML integer, rejected when negative. -/
def deUsize : TomlValue → Except String Nat
  | .int i => if 0 ≤ i then .ok i.toNat else .error "invalid value: negative integer for usize"
  | _ => .error "invalid type: expected integer"

/-- Deserializing a `String`. -/
def deString : TomlValue → Except String String
  | .str s => .ok s
  | _ => .error "invalid type: expected string"

/-- Deserializing a `Vec<T>` from a TOML array. -/
def deList (de : TomlValue → Except String α) : TomlValue → Except String (List α)
  | .arr vs => vs.mapM de
  | _ => .error "invalid type: expected array"

/-- The `Deserialize_repr` impl derived for `VmMemMappingType`
(src/lib.rs line 52): the declared discriminants 0 and 1 map to their
variants, and any other integer is an `invalid value` error. -/
def deVmMemMappingType : TomlValue → Except String VmMemMappingType
  | .int 0 => .ok .MapAlloc
  | .int 1 => .ok .MapIdentical
  | .int _ => .error "invalid value: unknown VmMemMappingType discriminant, expected 0 or 1"
  | _ => .error "invalid type: expected integer"

/-- The `Deserialize_repr` impl derived for `EmulatedDeviceType`
(src/lib.rs line 93): only the ten declared discriminants succeed. -/
def deEmulatedDeviceType : TomlValue → Except String EmulatedDeviceType
  | .int 0x0 => .ok .Dummy
  | .int 0x1 => .ok .InterruptController
  | .int 0x2 => .ok .Console
  | .int 0xA => .ok .IVCChannel
  | .int 0x20 => .ok .GPPTRedistributor
  | .int 0x21 => .ok .GPPTDistributor
  | .int 0x22 => .ok .GPPTITS
  | .int 0xE1 => .ok .VirtioBlk
  | .int 0xE2 => .ok .VirtioNet
  | .int 0xE3 => .ok .VirtioConsole
  | .int _ => .error "invalid value: unknown EmulatedDeviceType discriminant"
  | _ => .error "invalid type: expected integer"

/-- The `Deserialize` impl derived for `VMInterruptMode`
(src/lib.rs lines 304-315): a unit enum deserialized from a string, with
`rename`/`alias` attributes; matching is case-sensitive exact match. -/
def deVMInterruptMode : TomlValue → Except String VMInterruptMode
  | .str s =>
    if s == "no_irq" || s == "no" || s == "none" then .ok .NoIrq
    else if s == "emu" || s == "emulated" then .ok .Emulated
    else if s == "passthrough" || s == "pt" then .ok .Passthrough
    else .error ("unknown variant " ++ s)
  | _ => .error "invalid type: expected string"

/-- The `Deserialize` impl derived for `VmMemConfig` (src/lib.rs line 69):
a struct accepts a map keyed by field names, or a sequence of the fields in
declaration order (TOML array-of-tuples encoding, as used in the tests). -/
def deVmMemConfig : TomlValue → Except String VmMemConfig
  | .table kvs => do
    let gpa ← reqField kvs "gpa" deUsize
    let size ← reqField kvs "size" deUsize
    let flags ← reqField kvs "flags" deUsize
    let mt ← reqField kvs "map_type" deVmMemMappingType
    .ok ⟨gpa, size, flags, mt⟩
  | .arr [g, s, f, m] => do
    let gpa ← deUsize g
    let size ← deUsize s
    let flags ← deUsize f
    let mt ← deVmMemMappingType m
    .ok ⟨gpa, size, flags, mt⟩
  | .arr _ => .error "invalid length for VmMemConfig"
  | _ => .error "invalid type: expected table or array for VmMemConfig"

/-- The `Deserialize` impl derived for `EmulatedDeviceConfig`
(src/lib.rs line 210). -/
def deEmulatedDeviceConfig : TomlValue → Except String EmulatedDeviceConfig
  | .table kvs => do
    let name ← reqField kvs "name" deString
    let base_gpa ← reqField kvs "base_gpa" deUsize
    let length ← reqField kvs "length" deUsize
    let irq_id ← reqField kvs "irq_id" deUsize
    let emu_type ← reqField kvs "emu_type" deEmulatedDeviceType
    let cfg_list ← reqField kvs "cfg_list" (deList deUsize)
    .ok ⟨name, base_gpa, length, irq_id, emu_type, cfg_list⟩
  | .arr [n, bg, l, irq, et, cl] => do
    let name ← deString n
    let base_gpa ← deUsize bg
    let length ← deUsize l
    let irq_id ← deUsize irq
    let emu_type ← deEmulatedDeviceType et
    let cfg_list ← deList deUsize cl
    .ok ⟨name, base_gpa, length, irq_id, emu_type, cfg_list⟩
  | .arr _ => .error "invalid length for EmulatedDeviceConfig"
  | _ => .error "invalid type: expected table or array for EmulatedDeviceConfig"

/-- The `Deserialize` impl derived for `PassThroughDeviceConfig`
(src/lib.rs line 227). -/
def dePassThroughDeviceConfig : TomlValue → Except String PassThroughDeviceConfig
  | .table kvs => do
    let name ← reqField kvs "name" deString
    let base_gpa ← reqField kvs "base_gpa" deUsize
    let base_hpa ← reqField kvs "base_hpa" deUsize
    let length ← reqField kvs "length" deUsize
    let irq_id ← reqField kvs "irq_id" deUsize
    .ok ⟨name, base_gpa, base_hpa, length, irq_id⟩
  | .arr [n, bg, bh, l, irq] => do
    let name ← deString n
    let base_gpa ← deUsize bg
    let base_hpa ← deUsize bh
    let length ← deUsize l
    let irq_id ← deUsize irq
    .ok ⟨name, base_gpa, base_hpa, length, irq_id⟩
  | .arr _ => .error "invalid length for PassThroughDeviceConfig"
  | _ => .error "invalid type: expected table or array for PassThroughDeviceConfig"

/-- The `Deserialize` impl derived for `VMBaseConfig` (src/lib.rs line 242):
`phys_cpu_ids` and `phys_cpu_sets` are `Option` fields, so absence yields
`None`; the other four fields are mandatory. -/
def deVMBaseConfig : TomlValue → Except String VMBaseConfig
  | .table kvs => do
    let id ← reqField kvs "id" deUsize
    let name ← reqField kvs "name" deString
    let vm_type ← reqField kvs "vm_type" deUsize
    let cpu_num ← reqField kvs "cpu_num" deUsize
    let phys_cpu_ids ← optField kvs "phys_cpu_ids" (deList deUsize)
    let phys_cpu_sets ← optField kvs "phys_cpu_sets" (deList deUsize)
    .ok ⟨id, name, vm_type, cpu_num, phys_cpu_ids, phys_cpu_sets⟩
  | _ => .error "invalid type: expected table for VMBaseConfig"

/-- The `Deserialize` impl derived for `VMKernelConfig` (src/lib.rs line 273):
`entry_point`, `kernel_path`, `kernel_load_addr` and `memory_regions` are
mandatory; all other fields are `Option` (absence yields `None`). -/
def deVMKernelConfig : TomlValue → Except String VMKernelConfig
  | .table kvs => do
    let entry_point ← reqField kvs "entry_point" deUsize
    let kernel_path ← reqField kvs "kernel_path" deString
    let kernel_load_addr ← reqField kvs "kernel_load_addr" deUsize
    let bios_path ← optField kvs "bios_path" deString
    let bios_load_addr ← optField kvs "bios_load_addr" deUsize
    let dtb_path ← optField kvs "dtb_path" deString
    let dtb_load_addr ← optField kvs "dtb_load_addr" deUsize
    let ramdisk_path ← optField kvs "ramdisk_path" deString
    let ramdisk_load_addr ← optField kvs "ramdisk_load_addr" deUsize
    let image_location ← optField kvs "image_location" deString
    let cmdline ← optField kvs "cmdline" deString
    let disk_path ← optField kvs "disk_path" deString
    let memory_regions ← reqField kvs "memory_regions" (deList deVmMemConfig)
    .ok ⟨entry_point, kernel_path, kernel_load_addr, bios_path, bios_load_addr,
         dtb_path, dtb_load_addr, ramdisk_path, ramdisk_load_addr,
         image_location, cmdline, disk_path, memory_regions⟩
  | _ => .error "invalid type: expected table for VMKernelConfig"

/-- The `Deserialize` impl derived for `VMDevicesConfig` (src/lib.rs line 324):
`emu_devices` and `passthrough_devices` are mandatory `Vec` fields (no
`#[serde(default)]`), while `interrupt_mode` has `#[serde(default)]` and so
falls back to `VMInterruptMode::default()` (= `NoIrq`) when absent. -/
def deVMDevicesConfig : TomlValue → Except String VMDevicesConfig
  | .table kvs => do
    let emu_devices ← reqField kvs "emu_devices" (deList deEmulatedDeviceConfig)
    let passthrough_devices ←
      reqField kvs "passthrough_devices" (deList dePassThroughDeviceConfig)
    let interrupt_mode ← defField kvs "interrupt_mode" deVMInterruptMode VMInterruptMode.default
    .ok ⟨emu_devices, passthrough_devices, interrupt_mode⟩
  | _ => .error "invalid type: expected table for VMDevicesConfig"

/-- The `Deserialize` impl derived for `AxVMCrateConfig` (src/lib.rs line 337):
all three sub-tables are mandatory. -/
def deAxVMCrateConfig : TomlValue → Except String AxVMCrateConfig
  | .table kvs => do
    let base ← reqField kvs "base" deVMBaseConfig
    let kernel ← reqField kvs "kernel" deVMKernelConfig
    let devices ← reqField kvs "devices" deVMDevicesConfig
    .ok ⟨base, kernel, devices⟩
  | _ => .error "invalid type: expected table for AxVMCrateConfig"

/-- The error type of `axerrno::AxResult` as used here: `from_toml` maps any
deserialization failure to `ax_err_type!(InvalidInput, msg)`
(src/lib.rs line 352). -/
inductive AxError where
  | InvalidInput : String → AxError
deriving DecidableEq, Repr

/-- `AxVMCrateConfig::from_toml` (src/lib.rs lines 347-356), at the level of
the parsed TOML value tree: run the derived deserializer and wrap any failure
in a single `InvalidInput` error carrying a diagnostic message. -/
def AxVMCrateConfig.from_toml (doc : TomlValue) : Except AxError AxVMCrateConfig :=
  (deAxVMCrateConfig doc).mapError AxError.InvalidInput

/-- `get_vm_config_template` (src/templates.rs lines 26-71). -/
def get_vm_config_template (id : Nat) (name : String) (vm_type : Nat)
    (cpu_num : Nat) (entry_point : Nat) (kernel_path : String)
    (kernel_load_addr : Nat) (image_location : String)
    (cmdline : Option String) : AxVMCrateConfig :=
  { base :=
      { id := id
        name := name
        vm_type := vm_type
        cpu_num := cpu_num
        phys_cpu_ids := some (List.range cpu_num)
        phys_cpu_sets := none }
    kernel :=
      { entry_point := entry_point
        kernel_path := kernel_path
        kernel_load_addr := kernel_load_addr
        bios_path := none
        bios_load_addr := none
        dtb_path := none
        dtb_load_addr := none
        ramdisk_path := none
        ramdisk_load_addr := none
        image_location := some image_location
        cmdline := cmdline
        disk_path := none
        memory_regions := [] }
    devices :=
      { emu_devices := []
        passthrough_devices := []
        interrupt_mode := VMInterruptMode.default } }

/-! Concrete documents used to settle the claims. -/

/-- Build a whole-document table from the three sub-tables. -/
def mkDoc (b k d : List (String × TomlValue)) : TomlValue :=
  .table [("base", .table b), ("kernel", .table k), ("devices", .table d)]

/-- The `[base]` table of the repository's `test_config_deser` example. -/
def exampleBaseTable : List (String × TomlValue) :=
  [("id", .int 12), ("name", .str "test_vm"), ("vm_type", .int 1),
   ("cpu_num", .int 2), ("phys_cpu_sets", .arr [.int 3, .int 4]),
   ("phys_cpu_ids", .arr [.int 0x500, .int 0x501])]

/-- The `[kernel]` table of the example, with the memory region's `map_type`
code left as a parameter. -/
def exampleKernelTable (mapTypeCode : Int) : List (String × TomlValue) :=
  [("entry_point", .int 0xdeadbeef), ("image_location", .str "memory"),
   ("kernel_path", .str "amazing-os.bin"), ("kernel_load_addr", .int 0xdeadbeef),
   ("dtb_path", .str "impressive-board.dtb"), ("dtb_load_addr", .int 0xa0000000),
   ("memory_regions",
     .arr [.arr [.int 0x80000000, .int 0x80000000, .int 0x7, .int mapTypeCode]])]

/-- The `[devices]` table of the example, with the first emulated device's
`emu_type` code left as a parameter. -/
def exampleDevicesTable (emuTypeCode : Int) : List (String × TomlValue) :=
  [("passthrough_devices",
     .arr [.arr [.str "dev0", .int 0x0, .int 0x0, .int 0x08000000, .int 0x1],
           .arr [.str "dev1", .int 0x09000000, .int 0x09000000, .int 0x0a000000, .int 0x2]]),
   ("emu_devices",
     .arr [.arr [.str "dev2", .int 0x08000000, .int 0x10000, .int 0, .int emuTypeCode, .arr []],
           .arr [.str "dev3", .int 0x08080000, .int 0x10000, .int 0, .int 0x22, .arr []]]),
   ("interrupt_mode", .str "passthrough")]

/-- A document that is well-formed except possibly for the numeric `map_type`
and `emu_type` codes, which are parameters. -/
def exampleDoc (mapTypeCode emuTypeCode : Int) : TomlValue :=
  mkDoc exampleBaseTable (exampleKernelTable mapTypeCode) (exampleDevicesTable emuTypeCode)

/-- The aggregate that `exampleDoc 1 0x21` deserializes to (the repository's
`test_config_deser` expectations). -/
def exampleConfig : AxVMCrateConfig :=
  { base :=
      { id := 12, name := "test_vm", vm_type := 1, cpu_num := 2
        phys_cpu_ids := some [0x500, 0x501], phys_cpu_sets := some [3, 4] }
    kernel :=
      { entry_point := 0xdeadbeef, kernel_path := "amazing-os.bin"
        kernel_load_addr := 0xdeadbeef, bios_path := none, bios_load_addr := none
        dtb_path := some "impressive-board.dtb", dtb_load_addr := some 0xa0000000
        ramdisk_path := none, ramdisk_load_addr := none
        image_location := some "memory", cmdline := none, disk_path := none
        memory_regions := [⟨0x80000000, 0x80000000, 0x7, .MapIdentical⟩] }
    devices :=
      { emu_devices :=
          [⟨"dev2", 0x08000000, 0x10000, 0, .GPPTDistributor, []⟩,
           ⟨"dev3", 0x08080000, 0x10000, 0, .GPPTITS, []⟩]
        passthrough_devices :=
          [⟨"dev0", 0x0, 0x0, 0x08000000, 0x1⟩,
           ⟨"dev1", 0x09000000, 0x09000000, 0x0a000000, 0x2⟩]
        interrupt_mode := .Passthrough } }

/-- A minimal well-formed `[base]` table. -/
def minBase : List (String × TomlValue) :=
  [("id", .int 1), ("name", .str "vm"), ("vm_type", .int 1), ("cpu_num", .int 2)]

/-- A minimal well-formed `[kernel]` table. -/
def minKernel : List (String × TomlValue) :=
  [("entry_point", .int 0x1000), ("kernel_path", .str "k.bin"),
   ("kernel_load_addr", .int 0x1000), ("memory_regions", .arr [])]

/-- A minimal well-formed `[devices]` table (no `interrupt_mode`). -/
def minDevices : List (String × TomlValue) :=
  [("emu_devices", .arr []), ("passthrough_devices", .arr [])]

/-- The aggregate obtained from `mkDoc minBase minKernel minDevices`. -/
def minConfig : AxVMCrateConfig :=
  { base := { id := 1, name := "vm", vm_type := 1, cpu_num := 2
              phys_cpu_ids := none, phys_cpu_sets := none }
    kernel := { entry_point := 0x1000, kernel_path := "k.bin", kernel_load_addr := 0x1000
                bios_path := none, bios_load_addr := none, dtb_path := none
                dtb_load_addr := none, ramdisk_path := none, ramdisk_load_addr := none
                image_location := none, cmdline := none, disk_path := none
                memory_regions := [] }
    devices := { emu_devices := [], passthrough_devices := [], interrupt_mode := .NoIrq } }

/-- A structurally well-formed document exhibiting three semantic
inconsistencies: `phys_cpu_sets` has 3 entries while `cpu_num` is 2, the two
memory regions overlap, and the two emulated devices share the name `dup`. -/
def crossDoc : TomlValue :=
  mkDoc
    [("id", .int 1), ("name", .str "vm"), ("vm_type", .int 1), ("cpu_num", .int 2),
     ("phys_cpu_sets", .arr [.int 3, .int 4, .int 5])]
    [("entry_point", .int 0x1000), ("kernel_path", .str "k.bin"),
     ("kernel_load_addr", .int 0x1000),
     ("memory_regions",
       .arr [.arr [.int 0x1000, .int 0x2000, .int 0x7, .int 0],
             .arr [.int 0x1800, .int 0x1000, .int 0x7, .int 1]])]
    [("emu_devices",
       .arr [.arr [.str "dup", .int 0x0, .int 0x1000, .int 0, .int 0x0, .arr []],
             .arr [.str "dup", .int 0x0, .int 0x1000, .int 0, .int 0x0, .arr []]]),
     ("passthrough_devices", .arr [])]

/-- The aggregate that `crossDoc` deserializes to: the inconsistent values are
returned unchanged. -/
def crossConfig : AxVMCrateConfig :=
  { base := { id := 1, name := "vm", vm_type := 1, cpu_num := 2
              phys_cpu_ids := none, phys_cpu_sets := some [3, 4, 5] }
    kernel := { entry_point := 0x1000, kernel_path := "k.bin", kernel_load_addr := 0x1000
                bios_path := none, bios_load_addr := none, dtb_path := none
                dtb_load_addr := none, ramdisk_path := none, ramdisk_load_addr := none
                image_location := none, cmdline := none, disk_path := none
                memory_regions := [⟨0x1000, 0x2000, 0x7, .MapAlloc⟩,
                                   ⟨0x1800, 0x1000, 0x7, .MapIdentical⟩] }
    devices := { emu_devices := [⟨"dup", 0x0, 0x1000, 0, .Dummy, []⟩,
                                 ⟨"dup", 0x0, 0x1000, 0, .Dummy, []⟩]
                 passthrough_devices := [], interrupt_mode := .NoIrq } }

/-- The numeric codes carried by the ten declared `EmulatedDeviceType`
variants. -/
def emulatedDeviceTypeCodes : List Nat :=
  [0x0, 0x1, 0x2, 0xA, 0x20, 0x21, 0x22, 0xE1, 0xE2, 0xE3]

/-- The numeric codes carried by the three declared `VMType` variants. -/
def vmTypeCodes : List Nat := [0, 1, 2]

/-! Theorems settling the claims. -/

/-- C1 counterexample: the claim is false on the code. A document that is
well-formed except for a `map_type` code of 7 (resp. an `emu_type` code of
0x99) does not parse to the default variant: `AxVMCrateConfig::from_toml`
returns an `InvalidInput` error, because the serde_repr-derived deserializers
for `VmMemMappingType` and `EmulatedDeviceType` reject undeclared
discriminants — `from_usize` and its fallback are not part of the
deserialization path. -/
theorem C1_unknown_code_rejected_counterexample :
    AxVMCrateConfig.from_toml (exampleDoc 7 0x21) =
      .error (.InvalidInput
        "invalid value: unknown VmMemMappingType discriminant, expected 0 or 1") ∧
    AxVMCrateConfig.from_toml (exampleDoc 1 0x99) =
      .error (.InvalidInput "invalid value: unknown EmulatedDeviceType discriminant") :=
  ⟨rfl, rfl⟩

/-- C1 amended: for a configuration document that is well-formed except that
it carries a `map_type` or `emu_type` code outside the defined code set,
`AxVMCrateConfig::from_toml` fails with an `InvalidInput` parse error (the
same document with defined codes parses successfully); the fallback-to-default
decoding exists only in `EmulatedDeviceType::from_usize`, which the TOML
deserialization path does not use. -/
theorem C1_unknown_code_amended :
    AxVMCrateConfig.from_toml (exampleDoc 1 0x21) = .ok exampleConfig ∧
    AxVMCrateConfig.from_toml (exampleDoc 7 0x21) =
      .error (.InvalidInput
        "invalid value: unknown VmMemMappingType discriminant, expected 0 or 1") ∧
    AxVMCrateConfig.from_toml (exampleDoc 1 0x99) =
      .error (.InvalidInput "invalid value: unknown EmulatedDeviceType discriminant") ∧
    EmulatedDeviceType.from_usize 0x99 = EmulatedDeviceType.default :=
  ⟨rfl, rfl, rfl, rfl⟩

/-- C2 counterexample: the claim is false for Memory Mapping Type. The only
numeric-code-to-variant decoding the code provides for `VmMemMappingType` is
the serde_repr-derived deserializer, and on the out-of-domain code 7 it
raises an error instead of returning the default variant `MapAlloc`. -/
theorem C2_mem_mapping_decode_counterexample :
    deVmMemMappingType (.int 7) ≠ .ok VmMemMappingType.default ∧
    deVmMemMappingType (.int 7) =
      .error "invalid value: unknown VmMemMappingType discriminant, expected 0 or 1" :=
  ⟨fun h => Except.noConfusion h, rfl⟩

/-- C2 amended: `EmulatedDeviceType::from_usize` and `VMType`'s `From<usize>`
are total and map every code outside their defined domains to the default
variants `Dummy` and `VMTRTOS` respectively; `VmMemMappingType` has no such
fallback decoder — its numeric decoding rejects every integer outside {0, 1}
with an error. -/
theorem C2_decode_default_amended (n m : Nat) (i : Int)
    (hn : n ∉ emulatedDeviceTypeCodes) (hm : m ∉ vmTypeCodes)
    (hi0 : i ≠ 0) (hi1 : i ≠ 1) :
    EmulatedDeviceType.from_usize n = EmulatedDeviceType.default ∧
    VMType.fromUsize m = VMType.default ∧
    deVmMemMappingType (.int i) =
      .error "invalid value: unknown VmMemMappingType discriminant, expected 0 or 1" := by
  refine ⟨?_, ?_, ?_⟩
  · unfold EmulatedDeviceType.from_usize
    split <;> simp_all [emulatedDeviceTypeCodes, EmulatedDeviceType.default]
  · unfold VMType.fromUsize
    split <;> simp_all [vmTypeCodes]
  · unfold deVmMemMappingType
    split <;> simp_all

/-- Witness for C2 amended at `n = 3`, `m = 7`, `i = 7`. -/
theorem C2_decode_default_amended_witness :
    EmulatedDeviceType.from_usize 3 = EmulatedDeviceType.default ∧
    VMType.fromUsize 7 = VMType.default ∧
    deVmMemMappingType (.int 7) =
      .error "invalid value: unknown VmMemMappingType discriminant, expected 0 or 1" :=
  C2_decode_default_amended 3 7 7 (by decide) (by decide) (by decide) (by decide)

/-- C3: `From<usize> for VMType` maps 0 to `VMTHostVM`, 1 to `VMTRTOS` and
2 to `VMTLinux`, and every other `usize` to the default `VMTRTOS`; it is a
total function. -/
theorem C3_vmtype_from_usize (n : Nat) (h0 : n ≠ 0) (h1 : n ≠ 1) (h2 : n ≠ 2) :
    VMType.fromUsize 0 = .VMTHostVM ∧
    VMType.fromUsize 1 = .VMTRTOS ∧
    VMType.fromUsize 2 = .VMTLinux ∧
    VMType.fromUsize n = .VMTRTOS := by
  refine ⟨rfl, rfl, rfl, ?_⟩
  unfold VMType.fromUsize
  split <;> simp_all [VMType.default]

/-- Witness for C3 at `n = 999`. -/
theorem C3_vmtype_from_usize_witness :
    VMType.fromUsize 0 = .VMTHostVM ∧
    VMType.fromUsize 1 = .VMTRTOS ∧
    VMType.fromUsize 2 = .VMTLinux ∧
    VMType.fromUsize 999 = .VMTRTOS :=
  C3_vmtype_from_usize 999 (by decide) (by decide) (by decide)

/-- C4: for every defined `EmulatedDeviceType` variant `v`, decoding the
numeric code of `v` with `EmulatedDeviceType::from_usize` yields `v` back:
the variant-to-code and code-to-variant maps are mutually inverse over the
defined domain of ten variants. -/
theorem C4_emu_type_round_trip (v : EmulatedDeviceType) :
    EmulatedDeviceType.from_usize v.toCode = v := by
  cases v <;> rfl

/-- C5: `EmulatedDeviceType::removable` returns true exactly for
`InterruptController`, `GPPTRedistributor`, `VirtioBlk`, `VirtioNet` and
`VirtioConsole`, and false for every other defined variant. -/
theorem C5_removable_partition (v : EmulatedDeviceType) :
    v.removable = true ↔
      (v = .InterruptController ∨ v = .GPPTRedistributor ∨ v = .VirtioBlk ∨
       v = .VirtioNet ∨ v = .VirtioConsole) := by
  cases v <;> decide

/-- C6: parsing `interrupt_mode` strings `emulated`/`emu` yields `Emulated`,
`passthrough`/`pt` yields `Passthrough`, `no_irq`/`no`/`none` yields `NoIrq`;
an absent field yields the default `NoIrq`; matching is case-sensitive exact
match, so differently-cased spellings are rejected. -/
theorem C6_interrupt_mode_aliases :
    deVMInterruptMode (.str "emulated") = .ok .Emulated ∧
    deVMInterruptMode (.str "emu") = .ok .Emulated ∧
    deVMInterruptMode (.str "passthrough") = .ok .Passthrough ∧
    deVMInterruptMode (.str "pt") = .ok .Passthrough ∧
    deVMInterruptMode (.str "no_irq") = .ok .NoIrq ∧
    deVMInterruptMode (.str "no") = .ok .NoIrq ∧
    deVMInterruptMode (.str "none") = .ok .NoIrq ∧
    deVMDevicesConfig (.table minDevices) = .ok ⟨[], [], .NoIrq⟩ ∧
    deVMInterruptMode (.str "Emulated") = .error "unknown variant Emulated" ∧
    deVMInterruptMode (.str "PT") = .error "unknown variant PT" :=
  ⟨rfl, rfl, rfl, rfl, rfl, rfl, rfl, rfl, rfl, rfl⟩

/-- C7: `from_toml` succeeds exactly when the derived structural
deserialization succeeds, every failure is a single `InvalidInput` error
carrying a diagnostic message, and in particular a missing mandatory table,
a type mismatch (string where a number is required) and an unrecognized
interrupt-mode string each fail that way. The embedding is a total function
returning `Except`, modelling that the code never panics and produces no
partial aggregate on failure. -/
theorem C7_single_error_kind (doc : TomlValue) :
    (∀ cfg, AxVMCrateConfig.from_toml doc = .ok cfg ↔ deAxVMCrateConfig doc = .ok cfg) ∧
    ((∃ e, AxVMCrateConfig.from_toml doc = .error e) ↔
      ∃ msg, deAxVMCrateConfig doc = .error msg) ∧
    (∀ e, AxVMCrateConfig.from_toml doc = .error e →
      ∃ msg, e = AxError.InvalidInput msg) ∧
    AxVMCrateConfig.from_toml (TomlValue.table []) =
      .error (.InvalidInput "missing field base") ∧
    AxVMCrateConfig.from_toml
        (mkDoc [("id", .str "not_a_number"), ("name", .str "vm"),
                ("vm_type", .int 1), ("cpu_num", .int 1)] minKernel minDevices) =
      .error (.InvalidInput "invalid type: expected integer") ∧
    AxVMCrateConfig.from_toml
        (mkDoc minBase minKernel (minDevices ++ [("interrupt_mode", .str "irq")])) =
      .error (.InvalidInput "unknown variant irq") := by
  refine ⟨?_, ?_, ?_, rfl, rfl, rfl⟩
  · intro cfg
    cases h : deAxVMCrateConfig doc <;>
      simp [AxVMCrateConfig.from_toml, Except.mapError, h]
  · cases h : deAxVMCrateConfig doc <;>
      simp [AxVMCrateConfig.from_toml, Except.mapError, h]
  · intro e he
    cases h : deAxVMCrateConfig doc with
    | ok c =>
        rw [show AxVMCrateConfig.from_toml doc = .ok c by
          simp [AxVMCrateConfig.from_toml, Except.mapError, h]] at he
        exact Except.noConfusion he
    | error msg =>
        refine ⟨msg, ?_⟩
        have hmsg : AxVMCrateConfig.from_toml doc = .error (.InvalidInput msg) := by
          simp [AxVMCrateConfig.from_toml, Except.mapError, h]
        rw [hmsg] at he
        exact (Except.error.inj he).symm

/-- Witness for C7 at the empty document, discharging the error hypothesis
of the third conjunct with `rfl`. -/
theorem C7_single_error_kind_witness :
    ∃ msg, AxError.InvalidInput "missing field base" = AxError.InvalidInput msg :=
  (C7_single_error_kind (TomlValue.table [])).2.2.1
    (AxError.InvalidInput "missing field base") rfl

/-- C8: parsing performs no semantic cross-field validation: a structurally
well-formed document parses successfully even though its `phys_cpu_sets` has
3 entries while `cpu_num` is 2, its two memory regions overlap, and its two
emulated devices share a name; the mismatched values are returned unchanged
in the aggregate. -/
theorem C8_no_cross_validation :
    AxVMCrateConfig.from_toml crossDoc = .ok crossConfig ∧
    crossConfig.base.cpu_num = 2 ∧
    crossConfig.base.phys_cpu_sets.map List.length = some 3 ∧
    (∃ r0 r1, crossConfig.kernel.memory_regions = [r0, r1] ∧
      r0.gpa ≤ r1.gpa ∧ r1.gpa < r0.gpa + r0.size) ∧
    crossConfig.devices.emu_devices.map (fun d => d.name) = ["dup", "dup"] :=
  ⟨rfl, rfl, rfl,
    ⟨⟨0x1000, 0x2000, 0x7, .MapAlloc⟩, ⟨0x1800, 0x1000, 0x7, .MapIdentical⟩,
      rfl, by decide, by decide⟩, rfl⟩

/-- C9: the template builder is total and, for every argument tuple, places
the given scalars in the base and kernel configs, sets
`phys_cpu_ids = Some(0..cpu_num)` and `phys_cpu_sets = None`, leaves all
device and memory-region sequences empty, sets every optional kernel field
except `image_location` and `cmdline` to `None`, and sets
`interrupt_mode = NoIrq`; with `cpu_num = 3` the ids are `[0, 1, 2]`. -/
theorem C9_template_builder (id : Nat) (name : String)
    (vm_type cpu_num entry_point : Nat) (kernel_path : String)
    (kernel_load_addr : Nat) (image_location : String) (cmdline : Option String) :
    get_vm_config_template id name vm_type cpu_num entry_point kernel_path
        kernel_load_addr image_location cmdline =
      { base := { id := id, name := name, vm_type := vm_type, cpu_num := cpu_num
                  phys_cpu_ids := some (List.range cpu_num), phys_cpu_sets := none }
        kernel := { entry_point := entry_point, kernel_path := kernel_path
                    kernel_load_addr := kernel_load_addr, bios_path := none
                    bios_load_addr := none, dtb_path := none, dtb_load_addr := none
                    ramdisk_path := none, ramdisk_load_addr := none
                    image_location := some image_location, cmdline := cmdline
                    disk_path := none, memory_regions := [] }
        devices := { emu_devices := [], passthrough_devices := []
                     interrupt_mode := .NoIrq } } ∧
    (get_vm_config_template id name vm_type 3 entry_point kernel_path
        kernel_load_addr image_location cmdline).base.phys_cpu_ids = some [0, 1, 2] :=
  ⟨rfl, rfl⟩

/-- C10: at the parse interface, `emu_devices`, `passthrough_devices` and
`memory_regions` are mandatory (a document omitting any of them fails to
parse), while omitting `devices.interrupt_mode` parses successfully with the
default `NoIrq`. -/
theorem C10_mandatory_sequences :
    AxVMCrateConfig.from_toml (mkDoc minBase minKernel [("passthrough_devices", .arr [])]) =
      .error (.InvalidInput "missing field emu_devices") ∧
    AxVMCrateConfig.from_toml (mkDoc minBase minKernel [("emu_devices", .arr [])]) =
      .error (.InvalidInput "missing field passthrough_devices") ∧
    AxVMCrateConfig.from_toml
        (mkDoc minBase
          [("entry_point", .int 0x1000), ("kernel_path", .str "k.bin"),
           ("kernel_load_addr", .int 0x1000)] minDevices) =
      .error (.InvalidInput "missing field memory_regions") ∧
    AxVMCrateConfig.from_toml (mkDoc minBase minKernel minDevices) = .ok minConfig ∧
    minConfig.devices.interrupt_mode = .NoIrq :=
  ⟨rfl, rfl, rfl, rfl, rfl⟩

end AxVmConfig
